import Mathlib

/-!
Verification of the devcontainer session orchestrator (`main.go`).

The Go program is shallowly embedded as pure Lean functions.  External
interactions (environment variables, filesystem probes, results of the
`git`/`jj`/`docker` commands, the child process exit code) are supplied by
a `World` of oracles, and every externally visible action the program takes
is recorded in an ordered trace of `Effect`s.  Filesystem paths are
represented by their cleaned component lists (`/tmp/x` is
`["tmp", "x"]`).
-/

namespace Devcontainer

/-- A filesystem path, as the list of its components from the root. -/
abbrev Path := List String

/-- The kind of node a host filesystem has at a path (`os.Stat` result). -/
inductive FType where
  | file
  | dir
  | socket
deriving DecidableEq

/-- Contents of the jj `git_target` file, already split into an absolute or
relative path (`filepath.IsAbs` distinction in the source). -/
inductive GitTarget where
  | abs (p : Path)
  | rel (p : Path)
deriving DecidableEq

/-- All inputs the program reads from its surroundings: environment
variables (empty string means unset, as `os.Getenv` reports), filesystem
probes, and the success/failure outcomes of each external command the
orchestrator runs.  A `World` fixes one execution scenario. -/
structure World where
  /-- `CONTAINER_NAME` environment variable (`""` = unset). -/
  envContainerName : String
  /-- `IMAGE_NAME` environment variable (`""` = unset). -/
  envImageName : String
  /-- `DEVCONTAINER_VCS` environment variable (`""` = unset). -/
  envVCS : String
  /-- `BUILD_WORKSPACE_DIRECTORY` (`none` = unset/empty). -/
  envBWD : Option Path
  /-- `SSH_AUTH_SOCK` (`none` = unset/empty). -/
  envSshAuthSock : Option Path
  /-- `os.Getwd` result. -/
  cwd : Path
  /-- whether `os.Getwd` succeeds. -/
  cwdOk : Bool
  /-- `os.TempDir()`. -/
  tempDir : Path
  /-- `os.UserHomeDir()` result. -/
  homeDir : Path
  /-- `user.Current().Uid`. -/
  uid : String
  /-- `user.Current().Gid`. -/
  gid : String
  /-- whether stdin is a terminal. -/
  stdinTTY : Bool
  /-- the host filesystem: what kind of node exists at each path. -/
  fsType : Path → Option FType
  /-- group id of `/var/run/docker.sock` when `os.Stat` succeeds there. -/
  statDockerSockGid : Option String
  /-- random base-name component produced by `os.MkdirTemp` for the
  worktree directory (`none` = the call fails). -/
  mkdirTempRand : Option String
  /-- whether `os.MkdirTemp` for the build-context directory succeeds. -/
  mkdirTempContextOk : Bool
  /-- whether writing the embedded Dockerfile succeeds. -/
  writeDockerfileOk : Bool
  /-- whether writing the embedded .dockerignore succeeds. -/
  writeDockerignoreOk : Bool
  /-- whether `user.Current()` succeeds. -/
  userCurrentOk : Bool
  /-- whether `os.UserHomeDir()` succeeds. -/
  userHomeOk : Bool
  /-- whether `git worktree add` / `jj workspace add` exits 0. -/
  worktreeAddOk : Bool
  /-- whether `docker build` exits 0. -/
  buildOk : Bool
  /-- whether `dockerCmd.Start()` succeeds. -/
  startOk : Bool
  /-- `dockerCmd.Wait()` outcome: `some n` = child exited with code `n`,
  `none` = the wait failed with a non-exit error. -/
  waitExit : Option Nat
  /-- `bazel info output_base` output (`none` = command fails). -/
  bazelOutputBase : Option Path
  /-- name of the temp file created for the bazel rc (`none` = fails). -/
  bazelRCName : Option Path
  /-- parsed contents of `.jj/repo/store/git_target` (`none` = unreadable). -/
  gitTarget : Option GitTarget
  /-- commit parents in the git repository backing the workspace;
  models the history consulted by `git merge-base --is-ancestor`. -/
  repoParents : Nat → List Nat
  /-- recursion bound for the ancestry search (≥ repository depth). -/
  ancestorFuel : Nat
  /-- the commit each branch name points at. -/
  branchTip : String → Nat
  /-- the commit `HEAD` points at. -/
  headCommit : Nat

/-- `isDir` from the source: `os.Stat` succeeds and reports a directory. -/
def isDir (w : World) (p : Path) : Bool :=
  w.fsType p == some FType.dir

/-- `fileExists` from the source: `os.Stat` succeeds. -/
def fileExists (w : World) (p : Path) : Bool :=
  (w.fsType p).isSome

/-- `isSocket` from the source: the node's mode type is a socket. -/
def isSocket (w : World) (p : Path) : Bool :=
  w.fsType p == some FType.socket

/-- `envOrDefault` from the source. -/
def envOrDefault (v d : String) : String :=
  if v = "" then d else v

/-- Decimal value of a digit character. -/
def digitVal (c : Char) : Nat := c.toNat - 48

/-- `strconv.Atoi`: optional sign, at least one digit, nothing else, and
the value must fit a 64-bit signed integer. -/
def atoi (s : String) : Option Int :=
  let cs := s.toList
  let core : Bool × List Char :=
    match cs with
    | '+' :: rest => (false, rest)
    | '-' :: rest => (true, rest)
    | _ => (false, cs)
  let ds := core.2
  if ds = [] then none
  else if ds.all Char.isDigit then
    let n : Nat := ds.foldl (fun acc c => acc * 10 + digitVal c) 0
    if core.1 then
      if n ≤ 2 ^ 63 then some (-(n : Int)) else none
    else
      if n ≤ 2 ^ 63 - 1 then some ((n : Int)) else none
  else none

/-- Split a character list at its first colon, if it has one. -/
def breakColon : List Char → Option (List Char × List Char)
  | [] => none
  | c :: rest =>
    if c = ':' then some ([], rest)
    else
      match breakColon rest with
      | some (a, b) => some (c :: a, b)
      | none => none

/-- `strings.SplitN(s, ":", 2)`: split at the first colon only. -/
def splitN2 (s : String) : List String :=
  match breakColon s.toList with
  | some (a, b) => [String.mk a, String.mk b]
  | none => [s]

/-- The port-validation loop body of `run`: an entry passes iff it has the
form `hostPort:containerPort` with both parts accepted by `strconv.Atoi`. -/
def portOk (p : String) : Bool :=
  match splitN2 p with
  | [h, c] => (atoi h).isSome && (atoi c).isSome
  | _ => false

/-- The first malformed `--port` entry, if any (the loop fails there). -/
def firstBadPort (ports : List String) : Option String :=
  ports.find? (fun p => ! portOk p)

/-- A directory contains a VCS marker (`.jj` or `.git` subdirectory). -/
def hasVCSMarker (isDirF : Path → Bool) (p : Path) : Bool :=
  isDirF (p ++ [".jj"]) || isDirF (p ++ [".git"])

/-- The loop of `findVCSRoot`: walk from `cur` upward; return the first
directory with a marker, or `dir` unchanged once the root is passed.  The
fuel argument only bounds the recursion; with fuel above the depth of
`cur` it never runs out, since each step shortens `cur` by one. -/
def findVCSRootGo (isDirF : Path → Bool) (dir : Path) : Nat → Path → Path
  | 0, _ => dir
  | fuel + 1, cur =>
    if hasVCSMarker isDirF cur then cur
    else if cur = [] then dir
    else findVCSRootGo isDirF dir fuel cur.dropLast

/-- `findVCSRoot` from the source. -/
def findVCSRoot (isDirF : Path → Bool) (dir : Path) : Path :=
  findVCSRootGo isDirF dir (dir.length + 1) dir

/-- The chain of ancestors of a directory, nearest first, ending at the
filesystem root (fuel-bounded like the walk itself). -/
def ancestorChainGo : Nat → Path → List Path
  | 0, _ => []
  | fuel + 1, p => if p = [] then [[]] else p :: ancestorChainGo fuel p.dropLast

/-- All ancestors of `p` including itself and the root, nearest first. -/
def ancestorChain (p : Path) : List Path :=
  ancestorChainGo (p.length + 1) p

/-- The VCS kind indicated by the markers a directory itself contains,
preferring `.jj` (as the source's detection does). -/
def markerKind (isDirF : Path → Bool) (p : Path) : String :=
  if isDirF (p ++ [".jj"]) then "jj"
  else if isDirF (p ++ [".git"]) then "git"
  else ""

/-- Stated from the spec's words: auto-detection walks upward from the
starting directory and returns the VCS kind of the nearest ancestor
containing a marker directory, or none if the filesystem root is reached
without a marker.  Used to compare the source's detection against the
specified one. -/
def specAutoDetectVCS (isDirF : Path → Bool) (start : Path) : String :=
  match (ancestorChain start).find? (hasVCSMarker isDirF) with
  | some a => markerKind isDirF a
  | none => ""

/-- Workspace-root resolution in `run` (and `exec`): use
`BUILD_WORKSPACE_DIRECTORY` when set, else walk up from the working
directory. -/
def resolveWorkspaceDir (w : World) : Path :=
  match w.envBWD with
  | some p => p
  | none => findVCSRoot (isDir w) w.cwd

/-- VCS auto-detection at the resolved workspace root (lines 281–287). -/
def detectVCS (w : World) (ws : Path) : String :=
  if isDir w (ws ++ [".jj"]) then "jj"
  else if isDir w (ws ++ [".git"]) then "git"
  else ""

/-- Full VCS kind resolution in `run`: flag, then environment, then
auto-detection. -/
def resolveVCS (w : World) (vcsFlag : String) : String :=
  if vcsFlag ≠ "" then vcsFlag
  else if w.envVCS ≠ "" then w.envVCS
  else detectVCS w (resolveWorkspaceDir w)

/-- `git merge-base --is-ancestor b h` over the world's commit graph:
`b` is reachable from `h` by following parents (reflexively). -/
def isAncestor (parents : Nat → List Nat) (fuel : Nat) (b h : Nat) : Bool :=
  b == h ||
    match fuel with
    | 0 => false
    | f + 1 => (parents h).any (fun p => isAncestor parents f b p)

/-- The session state `run` accumulates before launching the container. -/
structure Session where
  workspaceDir : Path
  originalWorkspace : Option Path
  worktreeDir : Option Path
  branchName : String
  worktreeName : String
  containerName : String
  vcs : String
deriving DecidableEq

/-- One bind-mount entry (`-v src:dst[:ro]`). -/
structure Mount where
  src : Path
  dst : Path
  ro : Bool
deriving DecidableEq

/-- Everything that determines the `docker run` invocation. -/
structure DockerRunCfg where
  containerName : String
  label : Path
  tty : Bool
  mounts : List Mount
  envArgs : List String
  ports : List String
  image : String
  cmd : List String
deriving DecidableEq

/-- Externally visible actions of the orchestrator, in program order. -/
inductive Effect where
  | removeAll (p : Path)
  | mkdirTemp (p : Path)
  | removeDir (p : Path)
  | gitWorktreeAdd (repo : Path) (branch : String) (dir : Path)
  | jjWorkspaceAdd (repo : Path) (wsName : String) (dir : Path)
  | dockerBuild (image uid gid dockerGid : String)
  | dockerRm (name : String)
  | trustCall (p : Path)
  | dockerRun (cfg : DockerRunCfg)
  | gitWorktreeRemove (repo : Path) (dir : Path)
  | gitBranchDelete (repo : Path) (branch : String)
  | jjWorkspaceForget (repo : Path) (wsName : String)
deriving DecidableEq

/-- The errors `run` can return, one per distinct failure site.
`childExit` is the `exitCodeError` wrapper of the source. -/
inductive RunError where
  | resumeConflict
  | invalidPort (p : String)
  | getwdFailed
  | unknownVCS (v : String)
  | mkTempFailed
  | worktreeCreateFailed
  | contextDirFailed
  | writeDockerfileFailed
  | writeDockerignoreFailed
  | userFailed
  | homeFailed
  | buildFailed
  | dockerStartFailed
  | dockerWaitFailed
  | childExit (code : Nat)
deriving DecidableEq

instance : DecidableEq (Except RunError Unit) := fun a b =>
  match a, b with
  | .ok (), .ok () => isTrue rfl
  | .error x, .error y => if h : x = y then isTrue (by rw [h]) else isFalse (by simp [h])
  | .ok _, .error _ => isFalse (by simp)
  | .error _, .ok _ => isFalse (by simp)

/-- `main`'s translation of `run`'s result into a process exit code:
an `exitCodeError` exits with its wrapped code, any other error prints
and exits 1, success exits 0. -/
def mainExitCode : Except RunError Unit → Nat
  | .ok _ => 0
  | .error (.childExit n) => n
  | .error _ => 1

/-- `cleanupWorktree` from the source (lines 572–587), as the effect list
it produces.  The `git merge-base --is-ancestor branch HEAD` probe is
evaluated against the world's commit graph. -/
def cleanupWorktree (w : World) (worktreeDir : Option Path) (vcs : String)
    (originalWorkspace : Path) (branchName worktreeName : String) : List Effect :=
  match worktreeDir with
  | none => []
  | some wd =>
    if vcs = "git" then
      [Effect.gitWorktreeRemove originalWorkspace wd] ++
        (if isAncestor w.repoParents w.ancestorFuel (w.branchTip branchName) w.headCommit
         then [Effect.gitBranchDelete originalWorkspace branchName]
         else [])
    else if vcs = "jj" then
      [Effect.jjWorkspaceForget originalWorkspace worktreeName, Effect.removeAll wd]
    else []

/-- `cleanupWorktree` applied to a session's fields as `run` does. -/
def cleanupSession (w : World) (s : Session) : List Effect :=
  cleanupWorktree w s.worktreeDir s.vcs (s.originalWorkspace.getD []) s.branchName s.worktreeName

/-- `/home/dev`, the in-container home. -/
def devHome : Path := ["home", "dev"]

/-- `/var/run/docker.sock`. -/
def dockerSockPath : Path := ["var", "run", "docker.sock"]

/-- `filepath.Clean` on a rooted component list: resolve `.` and `..`. -/
def cleanPath (p : Path) : Path :=
  p.foldl (fun acc c => if c = ".." then acc.dropLast else if c = "." then acc else acc ++ [c]) []

/-- Worktree/workspace creation (lines 292–334 of `run`): pick the
directory and suffix, derive the container name, and invoke the VCS tool.
Returns the session state together with the effects performed. -/
def setupWorktree (w : World) (vcs name containerName0 : String) (ws0 : Path) :
    Except RunError Session × List Effect :=
  if vcs = "" then
    (.ok { workspaceDir := ws0, originalWorkspace := none, worktreeDir := none,
           branchName := "", worktreeName := "", containerName := containerName0,
           vcs := vcs }, [])
  else
    let picked : Option (String × Path × List Effect) :=
      if name ≠ "" then
        some (name, w.tempDir ++ ["devcontainer-" ++ name],
              [Effect.removeAll (w.tempDir ++ ["devcontainer-" ++ name])])
      else
        match w.mkdirTempRand with
        | none => none
        | some r =>
          some (r, w.tempDir ++ ["devcontainer-" ++ r],
                [Effect.mkdirTemp (w.tempDir ++ ["devcontainer-" ++ r]),
                 Effect.removeDir (w.tempDir ++ ["devcontainer-" ++ r])])
    match picked with
    | none => (.error .mkTempFailed, [])
    | some (suffix, wd, eff0) =>
      let cn := "devcontainer-" ++ suffix
      if vcs = "git" then
        let eff := eff0 ++ [Effect.gitWorktreeAdd ws0 cn wd]
        if w.worktreeAddOk then
          (.ok { workspaceDir := wd, originalWorkspace := some ws0, worktreeDir := some wd,
                 branchName := cn, worktreeName := "", containerName := cn, vcs := vcs }, eff)
        else (.error .worktreeCreateFailed, eff)
      else
        let eff := eff0 ++ [Effect.jjWorkspaceAdd ws0 cn wd]
        if w.worktreeAddOk then
          (.ok { workspaceDir := wd, originalWorkspace := some ws0, worktreeDir := some wd,
                 branchName := "", worktreeName := cn, containerName := cn, vcs := vcs }, eff)
        else (.error .worktreeCreateFailed, eff)

/-- The unconditional mounts (lines 409–418 of `run`). -/
def baseMounts (w : World) (s : Session) : List Mount :=
  [⟨s.workspaceDir, ["workspace"], false⟩,
   ⟨w.homeDir ++ [".cache", "bazelisk"], devHome ++ [".cache", "bazelisk"], true⟩,
   ⟨w.homeDir ++ [".cargo"], devHome ++ [".cargo"], true⟩,
   ⟨w.homeDir ++ [".rustup"], devHome ++ [".rustup"], true⟩,
   ⟨w.homeDir ++ ["go"], devHome ++ ["go"], true⟩,
   ⟨w.homeDir ++ ["dev", "go"], devHome ++ ["gopath"], false⟩,
   ⟨w.homeDir ++ [".npm"], devHome ++ [".npm"], true⟩,
   ⟨w.homeDir ++ [".cache", "pnpm"], devHome ++ [".cache", "pnpm"], true⟩,
   ⟨w.homeDir ++ [".claude"], devHome ++ [".claude"], false⟩,
   ⟨w.homeDir ++ [".claude.json"], devHome ++ [".claude.json"], false⟩]

/-- The bazel output-base mounts (lines 420–440 of `run`): only when a
`MODULE.bazel` manifest exists at the original root, `bazel info`
succeeds, and the rc temp file is created. -/
def bazelMounts (w : World) (s : Session) : List Mount :=
  if fileExists w ((s.originalWorkspace.getD s.workspaceDir) ++ ["MODULE.bazel"]) then
    match w.bazelOutputBase with
    | some ob =>
      match w.bazelRCName with
      | some rc => [⟨ob, ob, false⟩, ⟨rc, ["etc", "bazel.bazelrc"], true⟩]
      | none => []
    | none => []
  else []

/-- The opt-in docker socket mount (lines 442–445 of `run`). -/
def sockMounts (w : World) (docker : Bool) : List Mount :=
  if docker && isSocket w dockerSockPath then [⟨dockerSockPath, dockerSockPath, false⟩]
  else []

/-- The conditional credential/config mounts (lines 447–459 of `run`). -/
def condMounts (w : World) : List Mount :=
  (if fileExists w (w.homeDir ++ [".gitconfig"]) then
     [⟨w.homeDir ++ [".gitconfig"], devHome ++ [".gitconfig"], true⟩] else []) ++
  (if isDir w (w.homeDir ++ [".config", "gh"]) then
     [⟨w.homeDir ++ [".config", "gh"], devHome ++ [".config", "gh"], true⟩] else []) ++
  (if isDir w (w.homeDir ++ [".config", "jj"]) then
     [⟨w.homeDir ++ [".config", "jj"], devHome ++ [".config", "jj"], true⟩] else []) ++
  (if isDir w (w.homeDir ++ [".ssh"]) then
     [⟨w.homeDir ++ [".ssh"], devHome ++ [".ssh"], true⟩] else [])

/-- SSH agent forwarding (lines 461–465 of `run`): mount plus env var. -/
def sshMounts (w : World) : List Mount × List String :=
  match w.envSshAuthSock with
  | some p => ([⟨p, ["tmp", "ssh-agent.sock"], false⟩],
               ["-e", "SSH_AUTH_SOCK=/tmp/ssh-agent.sock"])
  | none => ([], [])

/-- The VCS metadata mounts for worktree sessions (lines 467–491). -/
def vcsMounts (w : World) (s : Session) : List Mount :=
  match s.worktreeDir with
  | none => []
  | some _ =>
    let orig := s.originalWorkspace.getD []
    if s.vcs = "git" then [⟨orig ++ [".git"], orig ++ [".git"], false⟩]
    else if s.vcs = "jj" then
      [⟨orig ++ [".jj", "repo"], orig ++ [".jj", "repo"], false⟩] ++
        (match w.gitTarget with
         | none => []
         | some t =>
           let target := cleanPath
             (match t with
              | .abs p => p
              | .rel p => orig ++ [".jj", "repo", "store"] ++ p)
           let jjRepo := orig ++ [".jj", "repo"]
           if ¬ jjRepo.isPrefixOf target ∧ isDir w target then
             [⟨target, target, false⟩]
           else [])
    else []

/-- The mount plan and environment arguments (lines 397–491 of `run`). -/
def buildMounts (w : World) (docker : Bool) (s : Session) : List Mount × List String :=
  (baseMounts w s ++ bazelMounts w s ++ sockMounts w docker ++ condMounts w ++
    (sshMounts w).1 ++ vcsMounts w s,
   (sshMounts w).2)

/-- `strings.TrimSpace`: drop leading and trailing whitespace. -/
def trimSpace (s : String) : String :=
  String.mk (((s.toList.dropWhile Char.isWhitespace).reverse.dropWhile Char.isWhitespace).reverse)

/-- The trailing command passed to the container (lines 518–525). -/
def containerCmd (resume : String) (extraArgs : List String) : List String :=
  if resume ≠ "" then
    ["claude", "--dangerously-skip-permissions", "--resume"] ++
      (if trimSpace resume ≠ "" then [resume] else [])
  else extraArgs

/-- The full `docker run` configuration assembled by `run`. -/
def runCfg (w : World) (docker : Bool) (ports : List String) (resume : String)
    (extraArgs : List String) (imageName : String) (s : Session) : DockerRunCfg :=
  let m := buildMounts w docker s
  { containerName := s.containerName,
    label := s.originalWorkspace.getD s.workspaceDir,
    tty := w.stdinTTY,
    mounts := m.1,
    envArgs := m.2,
    ports := ports,
    image := imageName,
    cmd := containerCmd resume extraArgs }

/-- The tail of `run` after the worktree phase (lines 336–569): build
context, image build, stale-container removal, trust update, mount plan,
container launch, wait, and cleanup. -/
def afterWorktree (w : World) (docker : Bool) (ports : List String) (resume : String)
    (extraArgs : List String) (imageName : String) (s : Session) (tr : List Effect) :
    Except RunError Unit × List Effect :=
  if ¬ w.mkdirTempContextOk then (.error .contextDirFailed, tr)
  else if ¬ w.writeDockerfileOk then (.error .writeDockerfileFailed, tr)
  else if ¬ w.writeDockerignoreOk then (.error .writeDockerignoreFailed, tr)
  else if ¬ w.userCurrentOk then (.error .userFailed, tr)
  else if ¬ w.userHomeOk then (.error .homeFailed, tr)
  else
    let dockerGID := w.statDockerSockGid.getD "984"
    let tr := tr ++ [Effect.dockerBuild imageName w.uid w.gid dockerGID]
    if ¬ w.buildOk then (.error .buildFailed, tr)
    else
      let tr := tr ++ [Effect.dockerRm s.containerName,
                       Effect.trustCall (w.homeDir ++ [".claude.json"])]
      let cfg := runCfg w docker ports resume extraArgs imageName s
      let tr := tr ++ [Effect.dockerRun cfg]
      if ¬ w.startOk then (.error .dockerStartFailed, tr ++ cleanupSession w s)
      else
        match w.waitExit with
        | none => (.error .dockerWaitFailed, tr ++ cleanupSession w s)
        | some n =>
          let tr := tr ++ cleanupSession w s
          if n ≠ 0 then (.error (.childExit n), tr) else (.ok (), tr)

/-- `run` from the source (lines 244–570), as a pure function from the
world and the flag values to the result and the effect trace. -/
def run (w : World) (name vcsFlag : String) (docker : Bool) (ports : List String)
    (resume : String) (extraArgs : List String) : Except RunError Unit × List Effect :=
  if resume ≠ "" ∧ extraArgs ≠ [] then (.error .resumeConflict, [])
  else
    match firstBadPort ports with
    | some p => (.error (.invalidPort p), [])
    | none =>
      let containerName0 := envOrDefault w.envContainerName "claude-dev"
      let imageName := envOrDefault w.envImageName "claude-devcontainer"
      if w.envBWD = none ∧ ¬ w.cwdOk then (.error .getwdFailed, [])
      else
        let ws0 := resolveWorkspaceDir w
        let vcs := resolveVCS w vcsFlag
        if ¬ (vcs = "" ∨ vcs = "git" ∨ vcs = "jj") then (.error (.unknownVCS vcs), [])
        else
          match setupWorktree w vcs name containerName0 ws0 with
          | (.error e, tr) => (.error e, tr)
          | (.ok s, tr) => afterWorktree w docker ports resume extraArgs imageName s tr

/-! ### Attach resolver (`exec` subcommand) -/

/-- One line of `docker ps` output, as parsed by `listDevcontainers`. -/
structure ContainerInfo where
  id : String
  names : String
deriving DecidableEq

/-- Failures of container resolution, one per failure site. -/
inductive ResolveError where
  | noneRunning
  | noMatch (target : String)
  | notInteractive
  | promptFailed
deriving DecidableEq

/-- The matching loop of `resolveContainer`: the first running container
whose name is the target exactly or the target with the fixed
`devcontainer-` marker prepended. -/
def findMatch (containers : List ContainerInfo) (target : String) : Option ContainerInfo :=
  containers.find? (fun c => c.names == target || c.names == "devcontainer-" ++ target)

/-- `promptSelectContainer` from the source: requires an interactive
terminal; the interactive selection's result is supplied as an index. -/
def promptSelectContainer (interactive : Bool) (promptIdx : Nat)
    (containers : List ContainerInfo) : Except ResolveError String :=
  if ¬ interactive then .error .notInteractive
  else
    match containers[promptIdx]? with
    | some c => .ok c.names
    | none => .error .promptFailed

/-- `resolveContainer` from the source (lines 151–174), over an
already-listed set of running candidates. -/
def resolveContainer (containers : List ContainerInfo) (target : String)
    (interactive : Bool) (promptIdx : Nat) : Except ResolveError String :=
  match containers with
  | [] => .error .noneRunning
  | c0 :: rest =>
    if target ≠ "" then
      match findMatch (c0 :: rest) target with
      | some c => .ok c.names
      | none => .error (.noMatch target)
    else if rest = [] then .ok c0.names
    else promptSelectContainer interactive promptIdx (c0 :: rest)

/-! ### `trustWorkspace` and its JSON model -/

/-- A JSON value; objects are association lists without duplicate keys
(the image of Go's `map[string]interface` under an ordering). -/
inductive JVal where
  | null
  | bool (b : Bool)
  | num (n : Int)
  | str (s : String)
  | arr (elems : List JVal)
  | obj (fields : List (String × JVal))

/-- Reading a key of a JSON object (Go map indexing). -/
def objGet (fields : List (String × JVal)) (k : String) : Option JVal :=
  List.lookup k fields

/-- Writing a key of a JSON object (Go map assignment): any old binding
for the key is dropped and the new one recorded. -/
def objSet (fields : List (String × JVal)) (k : String) (v : JVal) :
    List (String × JVal) :=
  fields.filter (fun kv => kv.1 != k) ++ [(k, v)]

/-- Go's `x.(map[string]interface)` type assertion: the fields when the
value is an object, `none` otherwise. -/
def asObj : Option JVal → Option (List (String × JVal))
  | some (.obj fields) => some fields
  | _ => none

/-- The JSON transformation performed by `trustWorkspace` (lines 599–618):
ensure `projects./workspace` exists and set its two trust keys to true. -/
def trustWorkspace (config : List (String × JVal)) : List (String × JVal) :=
  let projects := (asObj (objGet config "projects")).getD []
  let workspace := (asObj (objGet projects "/workspace")).getD []
  let workspace := objSet workspace "hasTrustDialogAccepted" (.bool true)
  let workspace := objSet workspace "hasCompletedProjectOnboarding" (.bool true)
  let projects := objSet projects "/workspace" (.obj workspace)
  objSet config "projects" (.obj projects)

/-- The file-level behaviour of `trustWorkspace` (lines 589–625): absent
file is success with no write; unreadable or non-object contents is an
error; otherwise the transformed object is written back. -/
def trustWorkspaceFile (file : Option (Option (List (String × JVal)))) :
    Except Unit (Option (List (String × JVal))) :=
  match file with
  | none => .ok none
  | some none => .error ()
  | some (some config) => .ok (some (trustWorkspace config))

/-! ### Concrete worlds for counterexamples and witnesses -/

/-- A benign base world: empty environment, empty filesystem, every
external command succeeds, the child exits 0. -/
def w0 : World where
  envContainerName := ""
  envImageName := ""
  envVCS := ""
  envBWD := none
  envSshAuthSock := none
  cwd := ["repo"]
  cwdOk := true
  tempDir := ["tmp"]
  homeDir := ["home", "u"]
  uid := "1000"
  gid := "1000"
  stdinTTY := false
  fsType := fun _ => none
  statDockerSockGid := none
  mkdirTempRand := some "rnd123"
  mkdirTempContextOk := true
  writeDockerfileOk := true
  writeDockerignoreOk := true
  userCurrentOk := true
  userHomeOk := true
  worktreeAddOk := true
  buildOk := true
  startOk := true
  waitExit := some 0
  bazelOutputBase := none
  bazelRCName := none
  gitTarget := none
  repoParents := fun _ => []
  ancestorFuel := 0
  branchTip := fun _ => 0
  headCommit := 0

/-- The session produced by the git worktree phase for an explicit name. -/
def gitSession (w : World) (name : String) : Session :=
  { workspaceDir := w.tempDir ++ ["devcontainer-" ++ name],
    originalWorkspace := some (resolveWorkspaceDir w),
    worktreeDir := some (w.tempDir ++ ["devcontainer-" ++ name]),
    branchName := "devcontainer-" ++ name,
    worktreeName := "",
    containerName := "devcontainer-" ++ name,
    vcs := "git" }

/-- The session produced by the git worktree phase for a random suffix. -/
def gitSessionRand (w : World) (r : String) : Session :=
  { workspaceDir := w.tempDir ++ ["devcontainer-" ++ r],
    originalWorkspace := some (resolveWorkspaceDir w),
    worktreeDir := some (w.tempDir ++ ["devcontainer-" ++ r]),
    branchName := "devcontainer-" ++ r,
    worktreeName := "",
    containerName := "devcontainer-" ++ r,
    vcs := "git" }

/-- The effects that destroy an isolated copy (the bodies of the two
`cleanupWorktree` branches). -/
def isCleanup : Effect → Bool
  | .gitWorktreeRemove _ _ => true
  | .gitBranchDelete _ _ => true
  | .jjWorkspaceForget _ _ => true
  | _ => false

/-- Container names the trace launches with `docker run --name`. -/
def dockerRunNames (tr : List Effect) : List String :=
  tr.filterMap (fun e =>
    match e with
    | .dockerRun cfg => some cfg.containerName
    | _ => none)

/-- World for the C3 counterexample: `BUILD_WORKSPACE_DIRECTORY` points at
`/w`, and the only marker in the filesystem is `/.git`, one level above. -/
def wC3 : World :=
  { w0 with
    envBWD := some ["w"],
    fsType := fun p => if p = [".git"] then some FType.dir else none }

/-- World in which `/var/run/docker.sock` exists and is a socket. -/
def wSock : World :=
  { w0 with
    fsType := fun p =>
      if p = ["var", "run", "docker.sock"] then some FType.socket else none }

/-! ## Helper lemmas -/

theorem findVCSRootGo_eq (isDirF : Path → Bool) (dir : Path) :
    ∀ (fuel : Nat) (cur : Path), cur.length < fuel →
      findVCSRootGo isDirF dir fuel cur =
        ((ancestorChainGo fuel cur).find? (hasVCSMarker isDirF)).getD dir := by
  intro fuel
  induction fuel with
  | zero => intro cur h; omega
  | succ f ih =>
    intro cur h
    by_cases hnil : cur = []
    · subst hnil
      by_cases hm : hasVCSMarker isDirF [] <;>
        simp [findVCSRootGo, ancestorChainGo, List.find?, hm]
    · by_cases hm : hasVCSMarker isDirF cur
      · simp [findVCSRootGo, ancestorChainGo, List.find?, hnil, hm]
      · have hlen : cur.dropLast.length < f := by
          have hpos : 0 < cur.length := List.length_pos.mpr hnil
          simp only [List.length_dropLast]
          omega
        simp [findVCSRootGo, ancestorChainGo, List.find?, hnil, hm, ih _ hlen]

theorem mem_ancestorChainGo_self (p : Path) (fuel : Nat) :
    p ∈ ancestorChainGo (fuel + 1) p := by
  by_cases h : p = [] <;> simp [ancestorChainGo, h]

/-- The source's auto-detection (root walk followed by a marker check at
the found root) computes exactly the spec's nearest-marked-ancestor kind,
whenever the workspace root is the walked-up working directory. -/
theorem autodetect_eq_spec (w : World) (hb : w.envBWD = none) :
    detectVCS w (resolveWorkspaceDir w) = specAutoDetectVCS (isDir w) w.cwd := by
  have hroot : resolveWorkspaceDir w =
      ((ancestorChain w.cwd).find? (hasVCSMarker (isDir w))).getD w.cwd := by
    simp only [resolveWorkspaceDir, hb, findVCSRoot, ancestorChain]
    exact findVCSRootGo_eq _ _ _ _ (Nat.lt_succ_self _)
  rw [hroot]
  unfold specAutoDetectVCS
  cases hf : (ancestorChain w.cwd).find? (hasVCSMarker (isDir w)) with
  | some a => simp [detectVCS, markerKind]
  | none =>
    have hmem := mem_ancestorChainGo_self w.cwd w.cwd.length
    have hnom := List.find?_eq_none.mp hf _ hmem
    simp only [hasVCSMarker, Bool.or_eq_true, not_or, Bool.not_eq_true] at hnom
    simp [detectVCS, hnom.1, hnom.2]

theorem isAncestor_self (parents : Nat → List Nat) (fuel : Nat) (c : Nat) :
    isAncestor parents fuel c c = true := by
  cases fuel <;> simp [isAncestor]

/-- Master lemma: the full behaviour of `run` on the git path with an
explicit session name, when every step up to the child's exit succeeds. -/
theorem run_git_named (w : World) (name vcsFlag : String) (docker : Bool)
    (ports : List String) (resume : String) (extraArgs : List String) (n : Nat)
    (hre : resume = "")
    (hp : firstBadPort ports = none)
    (hcwd : w.cwdOk = true)
    (hv : resolveVCS w vcsFlag = "git")
    (hname : name ≠ "")
    (hwt : w.worktreeAddOk = true)
    (hctx : w.mkdirTempContextOk = true)
    (hwfl : w.writeDockerfileOk = true)
    (hwig : w.writeDockerignoreOk = true)
    (huc : w.userCurrentOk = true)
    (huh : w.userHomeOk = true)
    (hbld : w.buildOk = true)
    (hst : w.startOk = true)
    (hw : w.waitExit = some n) :
    run w name vcsFlag docker ports resume extraArgs =
      ((if n ≠ 0 then Except.error (RunError.childExit n) else Except.ok ()),
        [Effect.removeAll (w.tempDir ++ ["devcontainer-" ++ name]),
         Effect.gitWorktreeAdd (resolveWorkspaceDir w) ("devcontainer-" ++ name)
           (w.tempDir ++ ["devcontainer-" ++ name]),
         Effect.dockerBuild (envOrDefault w.envImageName "claude-devcontainer") w.uid w.gid
           (w.statDockerSockGid.getD "984"),
         Effect.dockerRm ("devcontainer-" ++ name),
         Effect.trustCall (w.homeDir ++ [".claude.json"]),
         Effect.dockerRun (runCfg w docker ports resume extraArgs
           (envOrDefault w.envImageName "claude-devcontainer") (gitSession w name)),
         Effect.gitWorktreeRemove (resolveWorkspaceDir w) (w.tempDir ++ ["devcontainer-" ++ name])] ++
        (if isAncestor w.repoParents w.ancestorFuel (w.branchTip ("devcontainer-" ++ name)) w.headCommit
         then [Effect.gitBranchDelete (resolveWorkspaceDir w) ("devcontainer-" ++ name)]
         else [])) := by
  simp only [run, hre, hp, hcwd, hv]
  simp [setupWorktree, afterWorktree, hname, hwt, hctx, hwfl, hwig, huc, huh, hbld, hst, hw,
    cleanupSession, cleanupWorktree, gitSession, runCfg]
  by_cases hn : n = 0 <;>
    by_cases ha : isAncestor w.repoParents w.ancestorFuel
      (w.branchTip ("devcontainer-" ++ name)) w.headCommit <;>
    simp [hn, ha]

/-- Master lemma, random-suffix variant: the behaviour of `run` on the git
path with no `--name` flag, when every step up to the child's exit
succeeds and `os.MkdirTemp` picks suffix `r`. -/
theorem run_git_rand (w : World) (vcsFlag : String) (docker : Bool)
    (ports : List String) (resume : String) (extraArgs : List String) (r : String) (n : Nat)
    (hre : resume = "")
    (hp : firstBadPort ports = none)
    (hcwd : w.cwdOk = true)
    (hv : resolveVCS w vcsFlag = "git")
    (hrand : w.mkdirTempRand = some r)
    (hwt : w.worktreeAddOk = true)
    (hctx : w.mkdirTempContextOk = true)
    (hwfl : w.writeDockerfileOk = true)
    (hwig : w.writeDockerignoreOk = true)
    (huc : w.userCurrentOk = true)
    (huh : w.userHomeOk = true)
    (hbld : w.buildOk = true)
    (hst : w.startOk = true)
    (hw : w.waitExit = some n) :
    run w "" vcsFlag docker ports resume extraArgs =
      ((if n ≠ 0 then Except.error (RunError.childExit n) else Except.ok ()),
        [Effect.mkdirTemp (w.tempDir ++ ["devcontainer-" ++ r]),
         Effect.removeDir (w.tempDir ++ ["devcontainer-" ++ r]),
         Effect.gitWorktreeAdd (resolveWorkspaceDir w) ("devcontainer-" ++ r)
           (w.tempDir ++ ["devcontainer-" ++ r]),
         Effect.dockerBuild (envOrDefault w.envImageName "claude-devcontainer") w.uid w.gid
           (w.statDockerSockGid.getD "984"),
         Effect.dockerRm ("devcontainer-" ++ r),
         Effect.trustCall (w.homeDir ++ [".claude.json"]),
         Effect.dockerRun (runCfg w docker ports resume extraArgs
           (envOrDefault w.envImageName "claude-devcontainer") (gitSessionRand w r)),
         Effect.gitWorktreeRemove (resolveWorkspaceDir w) (w.tempDir ++ ["devcontainer-" ++ r])] ++
        (if isAncestor w.repoParents w.ancestorFuel (w.branchTip ("devcontainer-" ++ r)) w.headCommit
         then [Effect.gitBranchDelete (resolveWorkspaceDir w) ("devcontainer-" ++ r)]
         else [])) := by
  simp only [run, hre, hp, hcwd, hv]
  simp [setupWorktree, hrand, hwt, afterWorktree, hctx, hwfl, hwig, huc, huh, hbld, hst, hw,
    cleanupSession, cleanupWorktree, gitSessionRand, runCfg]
  by_cases hn : n = 0 <;>
    by_cases ha : isAncestor w.repoParents w.ancestorFuel
      (w.branchTip ("devcontainer-" ++ r)) w.headCommit <;>
    simp [hn, ha]

/-! ## Claims -/

/-- C4: combining a non-empty `--resume` value with trailing command
arguments fails with the mutual-exclusivity configuration error before any
side effect: the effect trace is empty, so no worktree is created, no
image is built, and no container is started. -/
theorem c4_theorem (w : World) (name vcsFlag : String) (docker : Bool)
    (ports : List String) (resume : String) (extraArgs : List String)
    (hr : resume ≠ "") (ha : extraArgs ≠ []) :
    run w name vcsFlag docker ports resume extraArgs =
      (.error .resumeConflict, []) := by
  simp [run, hr, ha]

theorem c4_witness :
    run w0 "s" "git" false [] "abc" ["echo"] = (.error .resumeConflict, []) :=
  c4_theorem w0 "s" "git" false [] "abc" ["echo"] (by decide) (by decide)

/-- C2: exit-code propagation of `start`.  On a run that reaches the wait
on the child: a child exit code of 0 yields overall exit code 0; a
non-zero child exit code `n` yields the `exitCodeError` wrapper, overall
exit code `n`, and the worktree cleanup still runs (the trace contains the
worktree removal); and any harness-level error other than the child-exit
wrapper is mapped to exit code 1 by `main`. -/
theorem c2_theorem (w : World) (name vcsFlag : String) (docker : Bool)
    (ports : List String) (resume : String) (extraArgs : List String) (n : Nat)
    (hre : resume = "")
    (hp : firstBadPort ports = none)
    (hcwd : w.cwdOk = true)
    (hv : resolveVCS w vcsFlag = "git")
    (hname : name ≠ "")
    (hwt : w.worktreeAddOk = true)
    (hctx : w.mkdirTempContextOk = true)
    (hwfl : w.writeDockerfileOk = true)
    (hwig : w.writeDockerignoreOk = true)
    (huc : w.userCurrentOk = true)
    (huh : w.userHomeOk = true)
    (hbld : w.buildOk = true)
    (hst : w.startOk = true)
    (hw : w.waitExit = some n) :
    (n = 0 → mainExitCode (run w name vcsFlag docker ports resume extraArgs).1 = 0) ∧
    (n ≠ 0 →
      (run w name vcsFlag docker ports resume extraArgs).1 =
        .error (.childExit n) ∧
      mainExitCode (run w name vcsFlag docker ports resume extraArgs).1 = n ∧
      Effect.gitWorktreeRemove (resolveWorkspaceDir w) (w.tempDir ++ ["devcontainer-" ++ name])
        ∈ (run w name vcsFlag docker ports resume extraArgs).2) ∧
    (∀ e : RunError, (∀ m, e ≠ .childExit m) → mainExitCode (.error e) = 1) := by
  have hrun := run_git_named w name vcsFlag docker ports resume extraArgs n hre hp hcwd hv
    hname hwt hctx hwfl hwig huc huh hbld hst hw
  refine ⟨?_, ?_, ?_⟩
  · intro h0
    rw [hrun]
    simp [h0, mainExitCode]
  · intro hn
    rw [hrun]
    refine ⟨by simp [hn], by simp [hn, mainExitCode], ?_⟩
    simp
  · intro e he
    cases e with
    | childExit m => exact absurd rfl (he m)
    | _ => rfl

theorem c2_witness :
    mainExitCode (run { w0 with waitExit := some 0 } "s" "git" false [] "" []).1 = 0 ∧
    ((run { w0 with waitExit := some 9 } "s" "git" false [] "" []).1 =
        .error (.childExit 9) ∧
      mainExitCode (run { w0 with waitExit := some 9 } "s" "git" false [] "" []).1 = 9 ∧
      Effect.gitWorktreeRemove ["repo"] ["tmp", "devcontainer-s"]
        ∈ (run { w0 with waitExit := some 9 } "s" "git" false [] "" []).2) ∧
    mainExitCode (.error .buildFailed) = 1 := by
  refine ⟨?_, ?_, ?_⟩
  · exact ( c2_theorem { w0 with waitExit := some 0 } "s" "git" false [] "" [] 0 rfl rfl rfl
      (by decide) (by decide) rfl rfl rfl rfl rfl rfl rfl rfl rfl).1 rfl
  · exact ( c2_theorem { w0 with waitExit := some 9 } "s" "git" false [] "" [] 9 rfl rfl rfl
      (by decide) (by decide) rfl rfl rfl rfl rfl rfl rfl rfl rfl).2.1 (by decide)
  · exact ( c2_theorem w0 "s" "git" false [] "" [] 0 rfl rfl rfl (by decide) (by decide)
      rfl rfl rfl rfl rfl rfl rfl rfl rfl).2.2 .buildFailed (by intro m; simp)

/-- C5: during git-backend cleanup, after the worktree removal the session
branch is deleted if and only if it is an ancestor of the current tip
(fully merged); a branch identical to the current tip is deleted, and a
branch that is not an ancestor (unmerged work) is preserved. -/
theorem c5_theorem (w : World) (name vcsFlag : String) (docker : Bool)
    (ports : List String) (resume : String) (extraArgs : List String) (n : Nat)
    (hre : resume = "")
    (hp : firstBadPort ports = none)
    (hcwd : w.cwdOk = true)
    (hv : resolveVCS w vcsFlag = "git")
    (hname : name ≠ "")
    (hwt : w.worktreeAddOk = true)
    (hctx : w.mkdirTempContextOk = true)
    (hwfl : w.writeDockerfileOk = true)
    (hwig : w.writeDockerignoreOk = true)
    (huc : w.userCurrentOk = true)
    (huh : w.userHomeOk = true)
    (hbld : w.buildOk = true)
    (hst : w.startOk = true)
    (hw : w.waitExit = some n) :
    Effect.gitWorktreeRemove (resolveWorkspaceDir w) (w.tempDir ++ ["devcontainer-" ++ name])
      ∈ (run w name vcsFlag docker ports resume extraArgs).2 ∧
    (Effect.gitBranchDelete (resolveWorkspaceDir w) ("devcontainer-" ++ name)
        ∈ (run w name vcsFlag docker ports resume extraArgs).2 ↔
      isAncestor w.repoParents w.ancestorFuel
        (w.branchTip ("devcontainer-" ++ name)) w.headCommit = true) ∧
    (w.branchTip ("devcontainer-" ++ name) = w.headCommit →
      Effect.gitBranchDelete (resolveWorkspaceDir w) ("devcontainer-" ++ name)
        ∈ (run w name vcsFlag docker ports resume extraArgs).2) := by
  have hrun := run_git_named w name vcsFlag docker ports resume extraArgs n hre hp hcwd hv
    hname hwt hctx hwfl hwig huc huh hbld hst hw
  rw [hrun]
  have hiff : Effect.gitBranchDelete (resolveWorkspaceDir w) ("devcontainer-" ++ name)
      ∈ ((if isAncestor w.repoParents w.ancestorFuel
            (w.branchTip ("devcontainer-" ++ name)) w.headCommit
          then [Effect.gitBranchDelete (resolveWorkspaceDir w) ("devcontainer-" ++ name)]
          else []) : List Effect) ↔
      isAncestor w.repoParents w.ancestorFuel
        (w.branchTip ("devcontainer-" ++ name)) w.headCommit = true := by
    by_cases ha : isAncestor w.repoParents w.ancestorFuel
        (w.branchTip ("devcontainer-" ++ name)) w.headCommit <;> simp [ha]
  refine ⟨by simp, ?_, ?_⟩
  · simp only [List.mem_append, List.mem_cons, List.not_mem_nil, or_false, false_or,
      reduceCtorEq, hiff]
  · intro htip
    have ha : isAncestor w.repoParents w.ancestorFuel
        (w.branchTip ("devcontainer-" ++ name)) w.headCommit = true := by
      rw [htip]; exact isAncestor_self _ _ _
    simp [ha]

theorem c5_witness :
    ((run { w0 with branchTip := fun _ => 5, headCommit := 5 } "s" "git" false [] "" []).2 =
        (run { w0 with branchTip := fun _ => 5, headCommit := 5 } "s" "git" false [] "" []).2 ∧
      Effect.gitBranchDelete ["repo"] "devcontainer-s"
        ∈ (run { w0 with branchTip := fun _ => 5, headCommit := 5 } "s" "git" false [] "" []).2) ∧
    Effect.gitBranchDelete ["repo"] "devcontainer-s"
      ∉ (run { w0 with branchTip := fun _ => 3, headCommit := 5 } "s" "git" false [] "" []).2 := by
  constructor
  · refine ⟨rfl, ?_⟩
    exact ( c5_theorem { w0 with branchTip := fun _ => 5, headCommit := 5 } "s" "git" false []
      "" [] 0 rfl rfl rfl (by decide) (by decide) rfl rfl rfl rfl rfl rfl rfl rfl rfl).2.2 rfl
  · intro hmem
    have h := ( c5_theorem { w0 with branchTip := fun _ => 3, headCommit := 5 } "s" "git" false []
      "" [] 0 rfl rfl rfl (by decide) (by decide) rfl rfl rfl rfl rfl rfl rfl rfl rfl).2.1.mp hmem
    exact absurd h (by decide)

/-- C1 counterexample: a run in which the worktree is created and
`docker build` then fails.  `run` surfaces the build error, the trace
records the worktree creation, and no cleanup action appears in the
trace — the isolated copy is not destroyed, contrary to the claim. -/
theorem c1_counterexample :
    (run { w0 with buildOk := false } "s" "git" false [] "" []).1 =
      .error .buildFailed ∧
    Effect.gitWorktreeAdd ["repo"] "devcontainer-s" ["tmp", "devcontainer-s"]
      ∈ (run { w0 with buildOk := false } "s" "git" false [] "" []).2 ∧
    ∀ e ∈ (run { w0 with buildOk := false } "s" "git" false [] "" []).2,
      isCleanup e = false := by
  decide

/-- C1 (amended): when the image build fails after the isolated copy was
created, `run` returns the build error WITHOUT destroying the isolated
copy: the trace ends at the build attempt and contains no cleanup
action. -/
theorem c1_theorem (w : World) (name vcsFlag : String) (docker : Bool)
    (ports : List String) (resume : String) (extraArgs : List String)
    (hre : resume = "")
    (hp : firstBadPort ports = none)
    (hcwd : w.cwdOk = true)
    (hv : resolveVCS w vcsFlag = "git")
    (hname : name ≠ "")
    (hwt : w.worktreeAddOk = true)
    (hctx : w.mkdirTempContextOk = true)
    (hwfl : w.writeDockerfileOk = true)
    (hwig : w.writeDockerignoreOk = true)
    (huc : w.userCurrentOk = true)
    (huh : w.userHomeOk = true)
    (hbld : w.buildOk = false) :
    run w name vcsFlag docker ports resume extraArgs =
      (.error .buildFailed,
        [Effect.removeAll (w.tempDir ++ ["devcontainer-" ++ name]),
         Effect.gitWorktreeAdd (resolveWorkspaceDir w) ("devcontainer-" ++ name)
           (w.tempDir ++ ["devcontainer-" ++ name]),
         Effect.dockerBuild (envOrDefault w.envImageName "claude-devcontainer") w.uid w.gid
           (w.statDockerSockGid.getD "984")]) ∧
    ∀ e ∈ (run w name vcsFlag docker ports resume extraArgs).2,
      isCleanup e = false := by
  have hrun : run w name vcsFlag docker ports resume extraArgs =
      (.error .buildFailed,
        [Effect.removeAll (w.tempDir ++ ["devcontainer-" ++ name]),
         Effect.gitWorktreeAdd (resolveWorkspaceDir w) ("devcontainer-" ++ name)
           (w.tempDir ++ ["devcontainer-" ++ name]),
         Effect.dockerBuild (envOrDefault w.envImageName "claude-devcontainer") w.uid w.gid
           (w.statDockerSockGid.getD "984")]) := by
    simp only [run, hre, hp, hcwd, hv]
    simp [setupWorktree, hname, hwt, afterWorktree, hctx, hwfl, hwig, huc, huh, hbld]
  refine ⟨hrun, ?_⟩
  rw [hrun]
  intro e he
  simp only [List.mem_cons, List.not_mem_nil, or_false] at he
  rcases he with h | h | h <;> subst h <;> rfl

theorem c1_witness :
    run { w0 with buildOk := false } "s" "git" false [] "" [] =
      (.error .buildFailed,
        [Effect.removeAll ["tmp", "devcontainer-s"],
         Effect.gitWorktreeAdd ["repo"] "devcontainer-s" ["tmp", "devcontainer-s"],
         Effect.dockerBuild "claude-devcontainer" "1000" "1000" "984"]) ∧
    ∀ e ∈ (run { w0 with buildOk := false } "s" "git" false [] "" []).2,
      isCleanup e = false :=
  c1_theorem { w0 with buildOk := false } "s" "git" false [] "" [] rfl rfl rfl
    (by decide) (by decide) rfl rfl rfl rfl rfl rfl rfl

/-- C7: port validation.  Any malformed `--port` entry makes `run` fail
with the invalid-port configuration error and an empty trace (no
worktree, build, or container side effect); when every entry is
well-formed, the whole list is forwarded verbatim into the `docker run`
configuration. -/
theorem c7_theorem (w : World) (name vcsFlag : String) (docker : Bool)
    (ports : List String) (resume : String) (extraArgs : List String) :
    (¬ (resume ≠ "" ∧ extraArgs ≠ []) → (∃ p ∈ ports, portOk p = false) →
      ∃ q ∈ ports, portOk q = false ∧
        run w name vcsFlag docker ports resume extraArgs =
          (.error (.invalidPort q), [])) ∧
    (∀ n : Nat, resume = "" → firstBadPort ports = none → w.cwdOk = true →
      resolveVCS w vcsFlag = "git" → name ≠ "" → w.worktreeAddOk = true →
      w.mkdirTempContextOk = true → w.writeDockerfileOk = true →
      w.writeDockerignoreOk = true → w.userCurrentOk = true → w.userHomeOk = true →
      w.buildOk = true → w.startOk = true → w.waitExit = some n →
      ∃ cfg, Effect.dockerRun cfg ∈ (run w name vcsFlag docker ports resume extraArgs).2 ∧
        cfg.ports = ports) := by
  constructor
  · intro hre hbad
    have hfind : (firstBadPort ports).isSome := by
      rw [firstBadPort, List.find?_isSome]
      obtain ⟨p, hmem, hpf⟩ := hbad
      exact ⟨p, hmem, by simp [hpf]⟩
    obtain ⟨q, hq⟩ := Option.isSome_iff_exists.mp hfind
    have hmemq := List.mem_of_find?_eq_some hq
    have hqf := List.find?_some hq
    refine ⟨q, hmemq, by simpa using hqf, ?_⟩
    simp [run, hre, hq]
  · intro n hre hp hcwd hv hname hwt hctx hwfl hwig huc huh hbld hst hw
    refine ⟨runCfg w docker ports resume extraArgs
      (envOrDefault w.envImageName "claude-devcontainer") (gitSession w name), ?_, rfl⟩
    rw [run_git_named w name vcsFlag docker ports resume extraArgs n hre hp hcwd hv hname
      hwt hctx hwfl hwig huc huh hbld hst hw]
    simp

theorem c7_witness :
    (∃ q ∈ ["8080:abc"], portOk q = false ∧
      run w0 "s" "git" false ["8080:abc"] "" [] = (.error (.invalidPort q), [])) ∧
    ∃ cfg, Effect.dockerRun cfg ∈ (run w0 "s" "git" false ["8080:80"] "" []).2 ∧
      cfg.ports = ["8080:80"] := by
  constructor
  · exact ( c7_theorem w0 "s" "git" false ["8080:abc"] "" []).1 (by decide)
      ⟨"8080:abc", by decide, by decide⟩
  · exact ( c7_theorem w0 "s" "git" false ["8080:80"] "" []).2 0 rfl (by decide) rfl
      (by decide) (by decide) rfl rfl rfl rfl rfl rfl rfl rfl rfl

/-- C8 counterexample: a session in which no VCS is detected keeps the
default engine name `claude-dev` even though `--name foo` was supplied:
the launched container's name is not `devcontainer-` + name, refuting the
claim for sessions without an isolated copy. -/
theorem c8_counterexample :
    dockerRunNames (run w0 "foo" "" false [] "" []).2 = ["claude-dev"] ∧
    Effect.dockerRm "claude-dev" ∈ (run w0 "foo" "" false [] "" []).2 ∧
    "claude-dev" ≠ "devcontainer-" ++ "foo" := by
  decide

/-- C8 (amended): for every session in which an isolated copy is created,
the container name is `devcontainer-` + name — where name is the
user-chosen value or the randomly generated suffix — and that derived name
is used as the engine identity of both the stale-container removal and
the launched container. -/
theorem c8_theorem (w : World) (vcsFlag : String) (docker : Bool)
    (ports : List String) (resume : String) (extraArgs : List String) (n : Nat)
    (hre : resume = "")
    (hp : firstBadPort ports = none)
    (hcwd : w.cwdOk = true)
    (hv : resolveVCS w vcsFlag = "git")
    (hwt : w.worktreeAddOk = true)
    (hctx : w.mkdirTempContextOk = true)
    (hwfl : w.writeDockerfileOk = true)
    (hwig : w.writeDockerignoreOk = true)
    (huc : w.userCurrentOk = true)
    (huh : w.userHomeOk = true)
    (hbld : w.buildOk = true)
    (hst : w.startOk = true)
    (hw : w.waitExit = some n) :
    (∀ name : String, name ≠ "" →
      Effect.dockerRm ("devcontainer-" ++ name)
        ∈ (run w name vcsFlag docker ports resume extraArgs).2 ∧
      ∃ cfg, Effect.dockerRun cfg ∈ (run w name vcsFlag docker ports resume extraArgs).2 ∧
        cfg.containerName = "devcontainer-" ++ name) ∧
    (∀ r : String, w.mkdirTempRand = some r →
      Effect.dockerRm ("devcontainer-" ++ r)
        ∈ (run w "" vcsFlag docker ports resume extraArgs).2 ∧
      ∃ cfg, Effect.dockerRun cfg ∈ (run w "" vcsFlag docker ports resume extraArgs).2 ∧
        cfg.containerName = "devcontainer-" ++ r) := by
  constructor
  · intro name hname
    rw [run_git_named w name vcsFlag docker ports resume extraArgs n hre hp hcwd hv hname
      hwt hctx hwfl hwig huc huh hbld hst hw]
    exact ⟨by simp, runCfg w docker ports resume extraArgs
      (envOrDefault w.envImageName "claude-devcontainer") (gitSession w name), by simp, rfl⟩
  · intro r hrand
    rw [run_git_rand w vcsFlag docker ports resume extraArgs r n hre hp hcwd hv hrand
      hwt hctx hwfl hwig huc huh hbld hst hw]
    exact ⟨by simp, runCfg w docker ports resume extraArgs
      (envOrDefault w.envImageName "claude-devcontainer") (gitSessionRand w r), by simp, rfl⟩

theorem c8_witness :
    (Effect.dockerRm "devcontainer-s" ∈ (run w0 "s" "git" false [] "" []).2 ∧
      ∃ cfg, Effect.dockerRun cfg ∈ (run w0 "s" "git" false [] "" []).2 ∧
        cfg.containerName = "devcontainer-s") ∧
    (Effect.dockerRm "devcontainer-rnd123" ∈ (run w0 "" "git" false [] "" []).2 ∧
      ∃ cfg, Effect.dockerRun cfg ∈ (run w0 "" "git" false [] "" []).2 ∧
        cfg.containerName = "devcontainer-rnd123") := by
  constructor
  · exact ( c8_theorem w0 "git" false [] "" [] 0 rfl rfl rfl (by decide) rfl rfl rfl rfl
      rfl rfl rfl rfl rfl).1 "s" (by decide)
  · exact ( c8_theorem w0 "git" false [] "" [] 0 rfl rfl rfl (by decide) rfl rfl rfl rfl
      rfl rfl rfl rfl rfl).2 "rnd123" rfl

/-- C3 counterexample: with `BUILD_WORKSPACE_DIRECTORY` set to `/w` and
the only marker directory being `/.git` one level above it, the program
probes only `/w` itself and resolves no VCS, while the claimed upward walk
from the starting directory finds the parent's `.git` marker and returns
git. -/
theorem c3_counterexample :
    resolveVCS wC3 "" = "" ∧
    specAutoDetectVCS (isDir wC3) ["w"] = "git" ∧
    resolveVCS wC3 "" ≠ specAutoDetectVCS (isDir wC3) ["w"] := by
  decide

/-- C3 (amended): VCS resolution precedence is flag over environment over
auto-detection; auto-detection equals the spec's nearest-marked-ancestor
walk whenever `BUILD_WORKSPACE_DIRECTORY` is unset (when it is set, only
that directory itself is probed); and a resolved kind that is neither git
nor jj nor empty fails with the unknown-VCS configuration error before
any side effect (empty trace). -/
theorem c3_theorem (w : World) (vcsFlag : String) :
    (vcsFlag ≠ "" → resolveVCS w vcsFlag = vcsFlag) ∧
    (vcsFlag = "" → w.envVCS ≠ "" → resolveVCS w vcsFlag = w.envVCS) ∧
    (vcsFlag = "" → w.envVCS = "" → w.envBWD = none →
      resolveVCS w vcsFlag = specAutoDetectVCS (isDir w) w.cwd) ∧
    (∀ (name : String) (docker : Bool) (ports : List String) (resume : String)
        (extraArgs : List String),
      ¬ (resume ≠ "" ∧ extraArgs ≠ []) → firstBadPort ports = none → w.cwdOk = true →
      resolveVCS w vcsFlag ≠ "" → resolveVCS w vcsFlag ≠ "git" →
      resolveVCS w vcsFlag ≠ "jj" →
      run w name vcsFlag docker ports resume extraArgs =
        (.error (.unknownVCS (resolveVCS w vcsFlag)), [])) := by
  refine ⟨?_, ?_, ?_, ?_⟩
  · intro h
    simp [resolveVCS, h]
  · intro h1 h2
    simp [resolveVCS, h1, h2]
  · intro h1 h2 hb
    have := autodetect_eq_spec w hb
    simpa [resolveVCS, h1, h2] using this
  · intro name docker ports resume extraArgs hre hp hcwd h1 h2 h3
    simp [run, hre, hp, hcwd, h1, h2, h3]

theorem c3_witness :
    resolveVCS w0 "jj" = "jj" ∧
    resolveVCS { w0 with envVCS := "git" } "" = "git" ∧
    resolveVCS w0 "" = specAutoDetectVCS (isDir w0) ["repo"] ∧
    run w0 "s" "bzr" false [] "" [] = (.error (.unknownVCS "bzr"), []) := by
  refine ⟨?_, ?_, ?_, ?_⟩
  · exact ( c3_theorem w0 "jj").1 (by decide)
  · exact ( c3_theorem { w0 with envVCS := "git" } "").2.1 rfl (by decide)
  · exact ( c3_theorem w0 "").2.2.1 rfl rfl rfl
  · have h := ( c3_theorem w0 "bzr").2.2.2 "s" false [] "" [] (by simp) rfl rfl
      (by decide) (by decide) (by decide)
    have he : resolveVCS w0 "bzr" = "bzr" := by decide
    rw [he] at h
    exact h

/-- C6: attach resolution.  With zero running candidates it fails with
the none-running error; with a non-empty target it returns the first
candidate whose name equals the target exactly or the target with the
fixed `devcontainer-` marker prepended, failing with a not-found error
when no candidate matches; with no target and exactly one candidate it
returns that candidate; with no target, several candidates, and a
non-interactive stdin it fails with the ambiguity error. -/
theorem c6_theorem (containers : List ContainerInfo) (target : String)
    (interactive : Bool) (promptIdx : Nat) :
    (containers = [] →
      resolveContainer containers target interactive promptIdx = .error .noneRunning) ∧
    (containers ≠ [] → target ≠ "" →
      (∀ c, findMatch containers target = some c →
        resolveContainer containers target interactive promptIdx = .ok c.names ∧
        c ∈ containers ∧ (c.names = target ∨ c.names = "devcontainer-" ++ target)) ∧
      (findMatch containers target = none →
        resolveContainer containers target interactive promptIdx =
          .error (.noMatch target))) ∧
    (∀ c, containers = [c] → target = "" →
      resolveContainer containers target interactive promptIdx = .ok c.names) ∧
    (2 ≤ containers.length → target = "" → interactive = false →
      resolveContainer containers target interactive promptIdx =
        .error .notInteractive) := by
  refine ⟨?_, ?_, ?_, ?_⟩
  · intro h
    subst h
    rfl
  · intro hne ht
    cases containers with
    | nil => exact absurd rfl hne
    | cons c0 rest =>
      constructor
      · intro c hc
        refine ⟨?_, List.mem_of_find?_eq_some hc, ?_⟩
        · simp [resolveContainer, ht, hc]
        · have := List.find?_some hc
          simpa using this
      · intro hc
        simp [resolveContainer, ht, hc]
  · intro c hc htarget
    subst hc htarget
    rfl
  · intro hlen htarget hint
    subst htarget
    cases containers with
    | nil => simp at hlen
    | cons c0 rest =>
      cases rest with
      | nil => simp at hlen
      | cons c1 r2 =>
        simp [resolveContainer, promptSelectContainer, hint]

theorem c6_witness :
    resolveContainer [] "b" false 0 = .error .noneRunning ∧
    resolveContainer
      [⟨"1", "devcontainer-a"⟩, ⟨"2", "devcontainer-b"⟩, ⟨"3", "claude-dev"⟩]
      "b" false 0 = .ok "devcontainer-b" ∧
    resolveContainer [⟨"1", "devcontainer-a"⟩] "" false 0 = .ok "devcontainer-a" ∧
    resolveContainer
      [⟨"1", "devcontainer-a"⟩, ⟨"2", "devcontainer-b"⟩, ⟨"3", "claude-dev"⟩]
      "" false 0 = .error .notInteractive := by
  refine ⟨?_, ?_, ?_, ?_⟩
  · exact ( c6_theorem [] "b" false 0).1 rfl
  · exact ((( c6_theorem
      [⟨"1", "devcontainer-a"⟩, ⟨"2", "devcontainer-b"⟩, ⟨"3", "claude-dev"⟩]
      "b" false 0).2.1 (by decide) (by decide)).1 ⟨"2", "devcontainer-b"⟩ (by decide)).1
  · exact ( c6_theorem [⟨"1", "devcontainer-a"⟩] "" false 0).2.2.1
      ⟨"1", "devcontainer-a"⟩ rfl rfl
  · exact ( c6_theorem
      [⟨"1", "devcontainer-a"⟩, ⟨"2", "devcontainer-b"⟩, ⟨"3", "claude-dev"⟩]
      "" false 0).2.2.2 (by decide) rfl rfl

/-- Membership in a conditional list with empty alternative. -/
theorem memIteNilIff {α : Type} (c : Prop) [Decidable c] (a : α) (l : List α) :
    (a ∈ if c then l else []) ↔ c ∧ a ∈ l := by
  by_cases h : c <;> simp [h]

/-- A path ending in a component other than `docker.sock` is not the
docker socket path. -/
theorem ne_dockerSock_of_last (l : Path) (a : String) (ha : a ≠ "docker.sock") :
    l ++ [a] ≠ dockerSockPath := by
  intro h
  have hl := congrArg List.getLast? h
  rw [List.getLast?_concat] at hl
  simp only [dockerSockPath] at hl
  simp at hl
  exact ha hl

theorem sock_not_mem_base (w : World) (s : Session) :
    (⟨dockerSockPath, dockerSockPath, false⟩ : Mount) ∉ baseMounts w s := by
  simp [baseMounts, devHome, dockerSockPath]

theorem sock_not_mem_bazel (w : World) (s : Session)
    (hob : ∀ p, w.bazelOutputBase = some p → p ≠ dockerSockPath) :
    (⟨dockerSockPath, dockerSockPath, false⟩ : Mount) ∉ bazelMounts w s := by
  intro h
  unfold bazelMounts at h
  rw [memIteNilIff] at h
  have h2 := h.2
  rcases hbo : w.bazelOutputBase with _ | ob <;> rw [hbo] at h2
  · simp at h2
  · rcases hrc : w.bazelRCName with _ | rc <;> rw [hrc] at h2
    · simp at h2
    · simp only [List.mem_cons, List.not_mem_nil, or_false] at h2
      rcases h2 with h2 | h2
      · have hsrc : dockerSockPath = ob := congrArg Mount.src h2
        exact hob ob hbo hsrc.symm
      · have hro := congrArg Mount.ro h2
        simp at hro

theorem sock_not_mem_cond (w : World) :
    (⟨dockerSockPath, dockerSockPath, false⟩ : Mount) ∉ condMounts w := by
  simp [condMounts, memIteNilIff, devHome, dockerSockPath]

theorem sock_not_mem_ssh (w : World) :
    (⟨dockerSockPath, dockerSockPath, false⟩ : Mount) ∉ (sshMounts w).1 := by
  cases hssh : w.envSshAuthSock <;> simp [sshMounts, hssh, dockerSockPath]

theorem sock_not_mem_vcs_git (w : World) (s : Session) (hvcs : s.vcs = "git") :
    (⟨dockerSockPath, dockerSockPath, false⟩ : Mount) ∉ vcsMounts w s := by
  intro h
  rcases hwd : s.worktreeDir with _ | wd <;>
    simp [vcsMounts, hwd, hvcs] at h
  exact ne_dockerSock_of_last _ ".git" (by decide) h.symm

theorem sock_mem_sock_iff (w : World) (docker : Bool) :
    ((⟨dockerSockPath, dockerSockPath, false⟩ : Mount) ∈ sockMounts w docker) ↔
      (docker = true ∧ isSocket w dockerSockPath = true) := by
  unfold sockMounts
  rw [memIteNilIff]
  simp [Bool.and_eq_true]

/-- The socket mount entry appears in the mount plan exactly when the
`--docker` flag is set and the path is a socket on the host (for a git
session, when the bazel output base does not alias the socket path). -/
theorem sock_mem_mounts_iff (w : World) (docker : Bool) (s : Session)
    (hvcs : s.vcs = "git")
    (hob : ∀ p, w.bazelOutputBase = some p → p ≠ dockerSockPath) :
    ((⟨dockerSockPath, dockerSockPath, false⟩ : Mount) ∈ (buildMounts w docker s).1) ↔
      (docker = true ∧ isSocket w dockerSockPath = true) := by
  rw [← sock_mem_sock_iff w docker]
  have hm : (buildMounts w docker s).1 =
      baseMounts w s ++ bazelMounts w s ++ sockMounts w docker ++ condMounts w ++
        (sshMounts w).1 ++ vcsMounts w s := rfl
  rw [hm]
  simp only [List.mem_append]
  constructor
  · intro h
    rcases h with ((((h | h) | h) | h) | h) | h
    · exact absurd h (sock_not_mem_base w s)
    · exact absurd h (sock_not_mem_bazel w s hob)
    · exact h
    · exact absurd h (sock_not_mem_cond w)
    · exact absurd h (sock_not_mem_ssh w)
    · exact absurd h (sock_not_mem_vcs_git w s hvcs)
  · intro h
    exact Or.inl (Or.inl (Or.inl (Or.inr h)))

/-- C9: the container-engine control socket is added to the mount plan if
and only if the `--docker` flag is set and the path exists on the host as
a socket; when either condition fails no socket mount entry is produced.
(The bazel output base is assumed not to alias the socket path, which on a
real host it cannot, being a directory.) -/
theorem c9_theorem (w : World) (name vcsFlag : String) (docker : Bool)
    (ports : List String) (resume : String) (extraArgs : List String) (n : Nat)
    (hre : resume = "")
    (hp : firstBadPort ports = none)
    (hcwd : w.cwdOk = true)
    (hv : resolveVCS w vcsFlag = "git")
    (hname : name ≠ "")
    (hwt : w.worktreeAddOk = true)
    (hctx : w.mkdirTempContextOk = true)
    (hwfl : w.writeDockerfileOk = true)
    (hwig : w.writeDockerignoreOk = true)
    (huc : w.userCurrentOk = true)
    (huh : w.userHomeOk = true)
    (hbld : w.buildOk = true)
    (hst : w.startOk = true)
    (hw : w.waitExit = some n)
    (hob : ∀ p, w.bazelOutputBase = some p → p ≠ dockerSockPath) :
    ∃ cfg, Effect.dockerRun cfg ∈ (run w name vcsFlag docker ports resume extraArgs).2 ∧
      (((⟨dockerSockPath, dockerSockPath, false⟩ : Mount) ∈ cfg.mounts) ↔
        (docker = true ∧ isSocket w dockerSockPath = true)) := by
  refine ⟨runCfg w docker ports resume extraArgs
    (envOrDefault w.envImageName "claude-devcontainer") (gitSession w name), ?_, ?_⟩
  · rw [run_git_named w name vcsFlag docker ports resume extraArgs n hre hp hcwd hv hname
      hwt hctx hwfl hwig huc huh hbld hst hw]
    simp
  · exact sock_mem_mounts_iff w docker (gitSession w name) rfl hob

theorem c9_witness :
    (∃ cfg, Effect.dockerRun cfg ∈ (run wSock "s" "git" true [] "" []).2 ∧
      (((⟨dockerSockPath, dockerSockPath, false⟩ : Mount) ∈ cfg.mounts) ↔
        (true = true ∧ isSocket wSock dockerSockPath = true))) ∧
    (∃ cfg, Effect.dockerRun cfg ∈ (run w0 "s" "git" true [] "" []).2 ∧
      (((⟨dockerSockPath, dockerSockPath, false⟩ : Mount) ∈ cfg.mounts) ↔
        (true = true ∧ isSocket w0 dockerSockPath = true))) :=
  ⟨c9_theorem wSock "s" "git" true [] "" [] 0 rfl rfl rfl (by decide) (by decide) rfl rfl
    rfl rfl rfl rfl rfl rfl rfl (fun p hp => by simp [wSock, w0] at hp),
   c9_theorem w0 "s" "git" true [] "" [] 0 rfl rfl rfl (by decide) (by decide) rfl rfl
    rfl rfl rfl rfl rfl rfl rfl (fun p hp => by simp [w0] at hp)⟩

theorem objGet_objSet_self (f : List (String × JVal)) (k : String) (v : JVal) :
    objGet (objSet f k v) k = some v := by
  induction f with
  | nil =>
    show List.lookup k [(k, v)] = some v
    simp [List.lookup]
  | cons a t ih =>
    obtain ⟨a1, a2⟩ := a
    show List.lookup k (List.filter (fun kv => kv.1 != k) ((a1, a2) :: t) ++ [(k, v)]) =
      some v
    rw [List.filter_cons]
    by_cases hak : a1 = k
    · have hp : ((a1, a2).1 != k) = false := by simp [hak]
      rw [hp]
      simp only [Bool.false_eq_true, if_false]
      exact ih
    · have hp : ((a1, a2).1 != k) = true := by simp [hak]
      rw [hp]
      simp only [if_true]
      have hne : (k == a1) = false := by
        rw [beq_eq_false_iff_ne]
        exact fun hk => hak hk.symm
      rw [List.cons_append]
      show List.lookup k ((a1, a2) :: (List.filter (fun kv => kv.1 != k) t ++ [(k, v)])) =
        some v
      rw [List.lookup]
      rw [hne]
      exact ih

theorem objGet_objSet_ne (f : List (String × JVal)) (k k' : String) (v : JVal)
    (h : k' ≠ k) : objGet (objSet f k v) k' = objGet f k' := by
  have hkk : (k' == k) = false := beq_eq_false_iff_ne.mpr h
  induction f with
  | nil =>
    show List.lookup k' [(k, v)] = List.lookup k' []
    simp [List.lookup, hkk]
  | cons a t ih =>
    obtain ⟨a1, a2⟩ := a
    show List.lookup k' (List.filter (fun kv => kv.1 != k) ((a1, a2) :: t) ++ [(k, v)]) =
      List.lookup k' ((a1, a2) :: t)
    rw [List.filter_cons]
    by_cases hak : a1 = k
    · have hp : ((a1, a2).1 != k) = false := by simp [hak]
      rw [hp]
      simp only [Bool.false_eq_true, if_false]
      have hne : (k' == a1) = false := by
        rw [beq_eq_false_iff_ne]
        exact fun hk => h (hk.trans hak)
      rw [List.lookup, hne]
      exact ih
    · have hp : ((a1, a2).1 != k) = true := by simp [hak]
      rw [hp]
      simp only [if_true]
      rw [List.cons_append]
      show List.lookup k' ((a1, a2) :: (List.filter (fun kv => kv.1 != k) t ++ [(k, v)])) =
        List.lookup k' ((a1, a2) :: t)
      rw [List.lookup, List.lookup]
      cases hke : (k' == a1) with
      | true => rfl
      | false => exact ih

/-- C10: `trustWorkspace` modifies only the `/workspace` entry under the
top-level `projects` key — setting exactly `hasTrustDialogAccepted` and
`hasCompletedProjectOnboarding` to true and creating the `projects` map
and `/workspace` entry when missing — while every other top-level key,
every other project entry, and every other `/workspace` key is preserved;
and a missing configuration file is a success with no write. -/
theorem c10_theorem (config : List (String × JVal)) :
    (∀ k, k ≠ "projects" → objGet (trustWorkspace config) k = objGet config k) ∧
    (∃ ps, objGet (trustWorkspace config) "projects" = some (.obj ps) ∧
      (∀ q, q ≠ "/workspace" →
        objGet ps q = objGet ((asObj (objGet config "projects")).getD []) q) ∧
      ∃ ws, objGet ps "/workspace" = some (.obj ws) ∧
        objGet ws "hasTrustDialogAccepted" = some (.bool true) ∧
        objGet ws "hasCompletedProjectOnboarding" = some (.bool true) ∧
        (∀ k, k ≠ "hasTrustDialogAccepted" → k ≠ "hasCompletedProjectOnboarding" →
          objGet ws k =
            objGet ((asObj (objGet ((asObj (objGet config "projects")).getD [])
              "/workspace")).getD []) k)) ∧
    trustWorkspaceFile none = .ok none := by
  refine ⟨?_, ?_, rfl⟩
  · intro k hk
    exact objGet_objSet_ne _ _ _ _ hk
  · refine ⟨_, objGet_objSet_self _ _ _, ?_, ?_⟩
    · intro q hq
      exact objGet_objSet_ne _ _ _ _ hq
    · refine ⟨_, objGet_objSet_self _ _ _, ?_, objGet_objSet_self _ _ _, ?_⟩
      · rw [objGet_objSet_ne _ _ _ _ (by decide)]
        exact objGet_objSet_self _ _ _
      · intro k h1 h2
        rw [objGet_objSet_ne _ _ _ _ h2, objGet_objSet_ne _ _ _ _ h1]

theorem c10_witness :
    objGet (trustWorkspace [("other", JVal.num 3)]) "other" = some (.num 3) ∧
    trustWorkspaceFile none = .ok none :=
  ⟨( c10_theorem [("other", JVal.num 3)]).1 "other" (by decide),
   ( c10_theorem [("other", JVal.num 3)]).2.2⟩

end Devcontainer
